import Mathlib

/-
  Verification development for the moengage-documentation-mcp-server
  repository: a shallow embedding of the incremental documentation-update
  pipeline (sitemap fetching, filtering, change detection, bounded crawl,
  deletion sweep, ledger) together with theorems settling the frozen
  claims about it.

  Embedding conventions:
  * JavaScript `Date` values are modelled as `Nat` milliseconds; an
    Invalid Date (NaN) is modelled as `Option.none` where it can occur.
  * External libraries (axios, xml2js, cheerio, turndown, the JS date
    parser) are modelled at their interface boundary as fields of an
    `Env` record; `crypto.createHash('md5')` is modelled by a full
    executable MD5 implementation below.
  * Promise-based code is modelled by explicit state passing; the
    single-threaded event loop makes per-batch processing a
    linearisation of `Promise.allSettled`.
-/

namespace MoEngage

/-! ## Character-list string utilities

The source manipulates JS strings with `split`, `includes`, `match`,
`replace`, `trim`, `toLowerCase`.  We model strings via their character
lists (`String.data`) and use structural recursion so every definition
reduces in the kernel. -/

/-- `splitOnChar sep l` splits `l` at every occurrence of `sep`,
matching JS `String.prototype.split` (keeps empty pieces). -/
def splitOnChar (sep : Char) : List Char → List (List Char)
  | [] => [[]]
  | c :: cs =>
    match splitOnChar sep cs with
    | [] => if c = sep then [[], []] else [[c]]
    | p :: ps => if c = sep then [] :: p :: ps else (c :: p) :: ps

/-- Whether the first list starts the second (JS `startsWith` over
char lists). -/
def beginsWith : List Char → List Char → Bool
  | [], _ => true
  | _ :: _, [] => false
  | p :: ps, c :: cs => p = c && beginsWith ps cs

/-- JS `String.prototype.includes` over char lists. -/
def listContains (needle : List Char) : List Char → Bool
  | [] => beginsWith needle []
  | c :: cs => beginsWith needle (c :: cs) || listContains needle cs

/-- JS `a.includes(b)` on strings. -/
def strContains (hay needle : String) : Bool :=
  listContains needle.data hay.data

/-- White-space test used to model JS `trim` (ASCII white space). -/
def isJsWhitespace (c : Char) : Bool :=
  c = ' ' || c = '\t' || c = '\n' || c = '\r' || c = '\x0b' || c = '\x0c'

/-- JS `String.prototype.trim` over char lists. -/
def listTrim (l : List Char) : List Char :=
  ((l.dropWhile isJsWhitespace).reverse.dropWhile isJsWhitespace).reverse

/-- JS `s.trim()`. -/
def strTrim (s : String) : String :=
  ⟨listTrim s.data⟩

/-- JS `String.prototype.toLowerCase` (ASCII case folding). -/
def strLower (s : String) : String :=
  ⟨s.data.map Char.toLower⟩

/-- Case-insensitive substring test, modelling a `/pat/i` regex test. -/
def strContainsCI (hay needle : String) : Bool :=
  strContains (strLower hay) (strLower needle)

/-- Split a list into chunks; `cap` is the remaining capacity of the
current chunk and `acc` its (reversed) contents. -/
def chunksGo (n : Nat) : List α → List α → Nat → List (List α)
  | [], acc, _ => if acc.isEmpty then [] else [acc.reverse]
  | x :: xs, acc, cap =>
    match cap with
    | 0 => acc.reverse :: chunksGo n xs [x] (n - 1)
    | cap + 1 => chunksGo n xs (x :: acc) cap

/-- Split a list into chunks of size `n` (last one possibly shorter). -/
def chunksOf (n : Nat) (l : List α) : List (List α) :=
  chunksGo n l [] n

/-! ## MD5 (RFC 1321), modelling `crypto.createHash('md5')`

Machine words are `Nat` reduced modulo `2 ^ 32` after every operation. -/

namespace MD5

def m32 : Nat := 4294967296

/-- 32-bit left rotation. -/
def rotl32 (x s : Nat) : Nat :=
  ((x <<< s) % m32) ||| (x >>> (32 - s))

/-- 32-bit complement. -/
def not32 (x : Nat) : Nat := 4294967295 ^^^ x

/-- The 64 sine-derived round constants. -/
def kTable : List Nat :=
  [0xd76aa478, 0xe8c7b756, 0x242070db, 0xc1bdceee,
   0xf57c0faf, 0x4787c62a, 0xa8304613, 0xfd469501,
   0x698098d8, 0x8b44f7af, 0xffff5bb1, 0x895cd7be,
   0x6b901122, 0xfd987193, 0xa679438e, 0x49b40821,
   0xf61e2562, 0xc040b340, 0x265e5a51, 0xe9b6c7aa,
   0xd62f105d, 0x02441453, 0xd8a1e681, 0xe7d3fbc8,
   0x21e1cde6, 0xc33707d6, 0xf4d50d87, 0x455a14ed,
   0xa9e3e905, 0xfcefa3f8, 0x676f02d9, 0x8d2a4c8a,
   0xfffa3942, 0x8771f681, 0x6d9d6122, 0xfde5380c,
   0xa4beea44, 0x4bdecfa9, 0xf6bb4b60, 0xbebfbc70,
   0x289b7ec6, 0xeaa127fa, 0xd4ef3085, 0x04881d05,
   0xd9d4d039, 0xe6db99e5, 0x1fa27cf8, 0xc4ac5665,
   0xf4292244, 0x432aff97, 0xab9423a7, 0xfc93a039,
   0x655b59c3, 0x8f0ccc92, 0xffeff47d, 0x85845dd1,
   0x6fa87e4f, 0xfe2ce6e0, 0xa3014314, 0x4e0811a1,
   0xf7537e82, 0xbd3af235, 0x2ad7d2bb, 0xeb86d391]

/-- The 64 per-round rotation amounts. -/
def sTable : List Nat :=
  [7, 12, 17, 22, 7, 12, 17, 22, 7, 12, 17, 22, 7, 12, 17, 22,
   5, 9, 14, 20, 5, 9, 14, 20, 5, 9, 14, 20, 5, 9, 14, 20,
   4, 11, 16, 23, 4, 11, 16, 23, 4, 11, 16, 23, 4, 11, 16, 23,
   6, 10, 15, 21, 6, 10, 15, 21, 6, 10, 15, 21, 6, 10, 15, 21]

/-- One MD5 round applied to state `(a, b, c, d)` at round index `i`
with message words `M`. -/
def md5Round (M : List Nat) (st : Nat × Nat × Nat × Nat) (i : Nat) :
    Nat × Nat × Nat × Nat :=
  let (a, b, c, d) := st
  let (f, g) :=
    if i < 16 then ((b &&& c) ||| (not32 b &&& d), i)
    else if i < 32 then ((d &&& b) ||| (not32 d &&& c), (5 * i + 1) % 16)
    else if i < 48 then (b ^^^ c ^^^ d, (3 * i + 5) % 16)
    else (c ^^^ (b ||| not32 d), (7 * i) % 16)
  let f := (f + a + kTable.getD i 0 + M.getD g 0) % m32
  (d, (b + rotl32 f (sTable.getD i 0)) % m32, b, c)

/-- Convert a 64-byte block into 16 little-endian 32-bit words. -/
def leWords : List Nat → List Nat
  | b0 :: b1 :: b2 :: b3 :: rest =>
    (b0 + b1 * 256 + b2 * 65536 + b3 * 16777216) :: leWords rest
  | _ => []

/-- `k` little-endian bytes of `x`. -/
def leBytes : Nat → Nat → List Nat
  | 0, _ => []
  | k + 1, x => x % 256 :: leBytes k (x / 256)

/-- MD5 padding: `0x80`, zeros to 56 mod 64, then the 64-bit
little-endian bit length. -/
def md5Pad (msg : List Nat) : List Nat :=
  let zeros := (119 - msg.length % 64) % 64
  msg ++ 128 :: List.replicate zeros 0 ++
    leBytes 8 ((msg.length * 8) % (m32 * m32))

/-- Process one 64-byte chunk, updating the running state. -/
def md5Chunk (st : Nat × Nat × Nat × Nat) (chunk : List Nat) :
    Nat × Nat × Nat × Nat :=
  let M := leWords chunk
  let (a, b, c, d) := (List.range 64).foldl (md5Round M) st
  let (a0, b0, c0, d0) := st
  ((a0 + a) % m32, (b0 + b) % m32, (c0 + c) % m32, (d0 + d) % m32)

/-- Lowercase hex digit. -/
def hexDigit (n : Nat) : Char :=
  "0123456789abcdef".data.getD n '0'

/-- Two-digit lowercase hex of a byte. -/
def byteHex (b : Nat) : List Char :=
  [hexDigit (b / 16 % 16), hexDigit (b % 16)]

/-- Little-endian hex rendering of a 32-bit word. -/
def wordHex (x : Nat) : List Char :=
  (leBytes 4 x).flatMap byteHex

/-- MD5 digest of a byte list, as a lowercase hex string. -/
def md5Bytes (msg : List Nat) : String :=
  let blocks := chunksOf 64 (md5Pad msg)
  let (a, b, c, d) :=
    blocks.foldl md5Chunk (0x67452301, 0xefcdab89, 0x98badcfe, 0x10325476)
  ⟨wordHex a ++ wordHex b ++ wordHex c ++ wordHex d⟩

end MD5

/-- UTF-8 encoding of a single character. -/
def utf8Char (c : Char) : List Nat :=
  let n := c.toNat
  if n < 128 then [n]
  else if n < 2048 then [192 + n / 64, 128 + n % 64]
  else if n < 65536 then [224 + n / 4096, 128 + n / 64 % 64, 128 + n % 64]
  else [240 + n / 262144, 128 + n / 4096 % 64, 128 + n / 64 % 64, 128 + n % 64]

/-- UTF-8 bytes of a string. -/
def utf8Bytes (s : String) : List Nat :=
  s.data.flatMap utf8Char

/-- `crypto.createHash('md5').update(s).digest('hex')`. -/
def md5Hex (s : String) : String :=
  MD5.md5Bytes (utf8Bytes s)

/-! ## URL parsing

Model of WHATWG `new URL(url).pathname` for the http(s) URLs the
pipeline handles: the pathname runs from the first `/` after the
`://`-delimited authority up to `?` or `#`; absence of `://` models the
`new URL` constructor throwing. -/

/-- Drop everything up to and including the first occurrence of `://`;
`none` when there is none (invalid URL). -/
def afterScheme : List Char → Option (List Char)
  | [] => none
  | c :: cs =>
    if beginsWith "://".data (c :: cs) then some (cs.drop 2)
    else afterScheme cs

/-- Skip the authority: everything before the first `/`; a `?` or `#`
ends the authority with an empty path. -/
def afterAuthority : List Char → List Char
  | [] => []
  | c :: cs =>
    if c = '/' then c :: cs
    else if c = '?' || c = '#' then []
    else afterAuthority cs

/-- `new URL(url).pathname`, or `none` when `new URL` would throw. -/
def parsePathname (url : String) : Option (List Char) :=
  (afterScheme url.data).map fun rest =>
    let p := (afterAuthority rest).takeWhile fun c => c ≠ '?' && c ≠ '#'
    if p.isEmpty then ['/'] else p

/-- First match of the regex `articles\/(\d+)` in a string: the maximal
digit run following the first occurrence of `articles/` that is
followed by at least one digit. -/
def articleMatch : List Char → Option (List Char)
  | [] => none
  | c :: cs =>
    if beginsWith "articles/".data (c :: cs) then
      let ds := ((c :: cs).drop 9).takeWhile Char.isDigit
      if ds.isEmpty then articleMatch cs else some ds
    else articleMatch cs

/-- `seg.replace(/\.[^/.]+$/, '')`: strip a final extension — a dot
followed by one or more characters none of which is `/` or `.`. -/
def stripExt (seg : List Char) : List Char :=
  let rev := seg.reverse
  let ext := rev.takeWhile fun c => c ≠ '.' && c ≠ '/'
  match rev.dropWhile (fun c => c ≠ '.' && c ≠ '/') with
  | '.' :: rest => if ext.isEmpty then seg else rest.reverse
  | _ => seg

/-- Shared tail of both id generators: last meaningful path segment
with its extension stripped, else the first 12 hex digits of the MD5 of
the URL. -/
def lastSegmentId (url : String) (pathSegments : List (List Char)) : String :=
  match pathSegments.getLast? with
  | some seg =>
    if (⟨seg⟩ : String) ≠ "index.html" then ⟨stripExt seg⟩
    else ⟨(md5Hex url).data.take 12⟩
  | none => ⟨(md5Hex url).data.take 12⟩

namespace SitemapUpdater

/-- `SitemapUpdater.generateDocumentId` (src/sitemap-updater.ts):
article ids take an `article-` prefixed numeric id from the URL, then
the last path segment, then an MD5 fallback.  `none` models `new URL`
throwing on an invalid URL (caught by the caller). -/
def generateDocumentId (url : String) : Option String :=
  match parsePathname url with
  | none => none
  | some path =>
    let pathSegments := (splitOnChar '/' path).filter fun s => s.length > 0
    match articleMatch url.data with
    | some ds => some ("article-" ++ (⟨ds⟩ : String))
    | none => some (lastSegmentId url pathSegments)

end SitemapUpdater

namespace DocumentProcessor

/-- `DocumentProcessor.generateDocumentId` (src/document-processor.ts):
identical to the orchestrator's version except that it has **no**
`articles/(\d+)` branch. -/
def generateDocumentId (url : String) : Option String :=
  match parsePathname url with
  | none => none
  | some path =>
    let pathSegments := (splitOnChar '/' path).filter fun s => s.length > 0
    some (lastSegmentId url pathSegments)

end DocumentProcessor

/-! ## Data model (src/types.ts) -/

/-- The configuration fields the update pipeline reads
(src/config.ts / ConfigSchema). -/
structure Config where
  sitemapUrls : List String
  rateLimitRequests : Nat
  rateLimitWindow : Nat
  maxConcurrentUpdates : Nat
  updateTimeout : Nat := 30000

/-- One `<url>` element of a parsed sitemap (SitemapEntrySchema). -/
structure SitemapEntry where
  loc : String
  lastmod : Option String := none
  changefreq : Option String := none
  priority : Option String := none

/-- `SitemapEntry & { source: string }` as built in `performUpdate`. -/
structure SourcedEntry extends SitemapEntry where
  source : String

/-- A documentation record (DocumentSchema).  Timestamps are `Nat`
milliseconds; `lastModified = none` models a JS Invalid Date. -/
structure Document where
  id : String
  url : String
  title : String
  content : String
  lastModified : Option Nat
  category : String
  tags : List String
  type : String
  platform : String
  source : String
  checksum : String
  createdAt : Nat
  updatedAt : Nat
deriving DecidableEq, Repr

/-- The counter part of an update status, `Omit<UpdateStatus,
'lastUpdate'>`, mutated in place during a run. -/
structure StatusCounts where
  totalDocuments : Nat := 0
  newDocuments : Nat := 0
  updatedDocuments : Nat := 0
  deletedDocuments : Nat := 0
  errors : List String := []
  duration : Nat := 0
deriving DecidableEq, Repr

/-- A full update status / ledger row (UpdateStatusSchema). -/
structure UpdateStatus extends StatusCounts where
  lastUpdate : Nat
deriving DecidableEq, Repr

/-- The durable state of src/database.ts: the `documents` table in
rowid order and the append-only `update_status` table. -/
structure Store where
  documents : List Document
  statusRows : List UpdateStatus
deriving DecidableEq, Repr

/-! ## Database operations (src/database.ts)

SQL queries over the list-modelled tables.  `ORDER BY ... DESC` is an
insertion sort on the relevant key. -/

/-- Insert into a list already sorted descending by `key`. -/
def insDesc (key : α → Nat) (x : α) : List α → List α
  | [] => [x]
  | y :: ys => if key y < key x then x :: y :: ys else y :: insDesc key x ys

/-- Sort a list descending by `key`. -/
def sortDesc (key : α → Nat) : List α → List α
  | [] => []
  | x :: xs => insDesc key x (sortDesc key xs)

namespace Database

/-- `SELECT * FROM documents WHERE id = ?` (`getDocument`). -/
def getDocument (store : Store) (id : String) : Option Document :=
  store.documents.find? fun d => d.id = id

/-- `INSERT OR REPLACE INTO documents ...` (`upsertDocument`):
conflicting rows (same primary-key `id` or same UNIQUE `url`) are
replaced; `createdAt` is carried over from the existing row with this
`id` via the COALESCE subquery; `updatedAt` is set to `now`. -/
def upsertDocument (store : Store) (doc : Document) (now : Nat) : Store :=
  let createdAt :=
    match getDocument store doc.id with
    | some old => old.createdAt
    | none => now
  let kept := store.documents.filter fun d => d.id ≠ doc.id && d.url ≠ doc.url
  { store with
    documents := kept ++ [{ doc with createdAt, updatedAt := now }] }

/-- `SELECT * FROM documents [WHERE updatedAt > ?] ORDER BY updatedAt
DESC LIMIT ?` (`getRecentUpdates`). -/
def getRecentUpdates (store : Store) (since : Option Nat) (limit : Nat) :
    List Document :=
  let rows :=
    match since with
    | some s => store.documents.filter fun d => s < d.updatedAt
    | none => store.documents
  (sortDesc (·.updatedAt) rows).take limit

/-- `DELETE FROM documents WHERE id = ?` (`deleteDocument`). -/
def deleteDocument (store : Store) (id : String) : Store :=
  { store with documents := store.documents.filter fun d => d.id ≠ id }

/-- `SELECT COUNT(*) FROM documents` (`getTotalDocumentCount`). -/
def getTotalDocumentCount (store : Store) : Nat :=
  store.documents.length

/-- `INSERT INTO update_status ...` (`saveUpdateStatus`): appends one
row with `lastUpdate = new Date()`. -/
def saveUpdateStatus (store : Store) (status : StatusCounts) (now : Nat) :
    Store :=
  { store with
    statusRows := store.statusRows ++ [{ status with lastUpdate := now }] }

/-- `SELECT * FROM update_status ORDER BY lastUpdate DESC LIMIT 1`
(`getLastUpdateStatus`). -/
def getLastUpdateStatus (store : Store) : Option UpdateStatus :=
  (sortDesc (·.lastUpdate) store.statusRows).head?

end Database

/-! ## Environment

External collaborators — HTTP, XML parsing, the cheerio selector
queries, turndown, the JS date parser — modelled at their interface
boundary, plus failure switches for the two store calls `performUpdate`
makes outside any per-entry catch. -/

/-- The cheerio-derived views of a fetched page that the extractor
reads: `extractTitle`'s result, `extractContent`'s HTML, and the texts
the category/tag heuristics query. -/
structure Page where
  title : String
  contentHtml : String
  breadcrumbText : String
  headingsText : String
  metaKeywords : Option String := none
  h23 : List String := []

/-- Outcome of `axios.get` + `cheerio.load` on a document URL. -/
inductive PageResp
  | fetchError (msg : String)
  | ok (status : Nat) (page : Page)

/-- Outcome of `axios.get` + `xml2js` parsing on a sitemap URL:
`entries = none` models a parse without `urlset`/`url` elements. -/
inductive SitemapResp
  | fetchError (msg : String)
  | ok (status : Nat) (entries : Option (List SitemapEntry))

/-- The external world of one run. -/
structure Env where
  config : Config
  sitemap : String → SitemapResp
  page : String → PageResp
  turndown : String → String
  parseDate : String → Option Nat
  fetchDuration : String → Nat := fun _ => 0
  countFails : Bool := false
  countErrMsg : String := "database error"
  saveStatusFails : Bool := false
  saveErrMsg : String := "database error"

/-- Whether a fetch start was a sitemap fetch or a document fetch. -/
inductive FetchKind
  | sitemap
  | doc
deriving DecidableEq, Repr

/-- Observable events of a run. -/
inductive Event
  | fetchStart (kind : FetchKind) (url : String) (time : Nat)
  | acquire (time : Nat)
deriving DecidableEq, Repr

/-- Mutable state threaded through a run: the clock, the
`DocumentProcessor.rateLimiter` timestamp list, the store, and the
event trace. -/
structure RunState where
  clock : Nat
  limiter : List Nat
  store : Store
  trace : List Event
deriving DecidableEq, Repr

/-! ## Document processor (src/document-processor.ts) -/

/-- `s.replace(/\s+/g, '-')`: each white-space run becomes one `-`.
The Boolean records whether the previous character was white space. -/
def dashWsRuns (inRun : Bool) : List Char → List Char
  | [] => []
  | c :: cs =>
    if isJsWhitespace c then
      if inRun then dashWsRuns true cs else '-' :: dashWsRuns true cs
    else c :: dashWsRuns false cs

/-- `s.split(/\s+/)` restricted to its non-empty pieces (the only use
filters by length afterwards). -/
def wsWordsGo (cur : List Char) : List Char → List (List Char)
  | [] => if cur.isEmpty then [] else [cur.reverse]
  | c :: cs =>
    if isJsWhitespace c then
      if cur.isEmpty then wsWordsGo [] cs else cur.reverse :: wsWordsGo [] cs
    else wsWordsGo (c :: cur) cs

/-- Non-empty white-space-separated words of a string. -/
def wsWords (s : String) : List String :=
  (wsWordsGo [] s.data).map fun w => (⟨w⟩ : String)

namespace DocumentProcessor

/-- `checkRateLimit`: drop timestamps outside the trailing window; when
the cap is reached, wait until the oldest recorded request ages out
(`setTimeout` advances the clock); then record the **pre-wait**
timestamp `now`, exactly as the code pushes the stale `now`.  An
`acquire` event marks the call returning. -/
def checkRateLimit (cfg : Config) (st : RunState) : RunState :=
  let now := st.clock
  let validRequests := st.limiter.filter fun t => now - t < cfg.rateLimitWindow
  if cfg.rateLimitRequests ≤ validRequests.length then
    let waitTime :=
      match validRequests with
      | [] => 0
      | v :: vs => cfg.rateLimitWindow - (now - vs.foldl min v)
    { st with clock := now + waitTime,
              limiter := validRequests ++ [now],
              trace := st.trace ++ [.acquire (now + waitTime)] }
  else
    { st with limiter := validRequests ++ [now],
              trace := st.trace ++ [.acquire now] }

/-- The ordered `(pattern, category)` rule table of `extractCategory`;
each `/pat/i` regex is a case-insensitive substring test. -/
def sdkPatterns : List (String × String) :=
  [("android", "Android SDK"), ("ios", "iOS SDK"), ("web", "Web SDK"),
   ("react-native", "React Native SDK"), ("flutter", "Flutter SDK"),
   ("cordova", "Cordova SDK"), ("capacitor", "Capacitor SDK"),
   ("unity", "Unity SDK"), ("ionic", "Ionic SDK"), ("api", "API Reference"),
   ("shopify", "Shopify Integration"), ("getting-started", "Getting Started"),
   ("integration", "Integration Guide"),
   ("troubleshooting", "Troubleshooting"), ("faq", "FAQ")]

/-- First rule of `sdkPatterns` whose pattern passes `test`. -/
def firstRule (test : String → Bool) : List (String × String) → Option String
  | [] => none
  | (pat, cat) :: rest => if test pat then some cat else firstRule test rest

/-- `extractCategory`: source prefix from the URL host, then the first
matching rule over URL path segments, breadcrumb text, and title +
headings; `none` models `new URL` throwing on an invalid URL. -/
def extractCategory (url : String) (page : Page) : Option String :=
  let srcLabel :=
    if strContains url "help.moengage.com" then "Help - "
    else if strContains url "partners.moengage.com" then "Partners - "
    else "Developers - "
  match parsePathname url with
  | none => none
  | some urlPath =>
    let pathSegments := (splitOnChar '/' urlPath).filter fun s => s.length > 0
    match firstRule
        (fun pat => pathSegments.any fun seg => strContainsCI (⟨seg⟩ : String) pat)
        sdkPatterns with
    | some cat => some (srcLabel ++ cat)
    | none =>
      match firstRule (fun pat => strContainsCI page.breadcrumbText pat)
          sdkPatterns with
      | some cat => some (srcLabel ++ cat)
      | none =>
        let titleText := page.title ++ " " ++ page.headingsText
        match firstRule (fun pat => strContainsCI titleText pat) sdkPatterns with
        | some cat => some (srcLabel ++ cat)
        | none => some (srcLabel ++ "General")

/-- `extractPlatform`: case-insensitive substring checks over the URL
and the category, in source order. -/
def extractPlatform (url category : String) : String :=
  let urlLower := strLower url
  let categoryLower := strLower category
  if strContains urlLower "android" || strContains categoryLower "android" then "android"
  else if strContains urlLower "ios" || strContains categoryLower "ios" then "ios"
  else if strContains urlLower "web" || strContains categoryLower "web" then "web"
  else if strContains urlLower "react-native" || strContains categoryLower "react-native" then "react-native"
  else if strContains urlLower "flutter" || strContains categoryLower "flutter" then "flutter"
  else if strContains urlLower "api" || strContains categoryLower "api" then "api"
  else "general"

/-- `extractType`: same shape as `extractPlatform`. -/
def extractType (url category : String) : String :=
  let urlLower := strLower url
  let categoryLower := strLower category
  if strContains urlLower "tutorial" || strContains categoryLower "tutorial" then "tutorial"
  else if strContains urlLower "reference" || strContains categoryLower "reference" then "reference"
  else if strContains urlLower "api" || strContains categoryLower "api" then "api"
  else if strContains urlLower "sdk" || strContains categoryLower "sdk" then "sdk"
  else "guide"

/-- Insertion-ordered set insert, modelling the JS `Set` of tags. -/
def addTag (tags : List String) (t : String) : List String :=
  if tags.contains t then tags else tags ++ [t]

/-- `extractTags`: category slug, platform, meta keywords longer than
two characters, first two long words of each h2/h3, capped at 10. -/
def extractTags (page : Page) (category platform : String) : List String :=
  let tags := addTag [] ⟨dashWsRuns false (strLower category).data⟩
  let tags := if platform ≠ "general" then addTag tags platform else tags
  let tags :=
    match page.metaKeywords with
    | none => tags
    | some kw =>
      ((splitOnChar ',' kw.data).map fun k =>
          strLower (strTrim (⟨k⟩ : String))).foldl
        (fun acc cleaned =>
          if 2 < cleaned.length then addTag acc cleaned else acc) tags
  let tags := page.h23.foldl
    (fun acc heading =>
      (((wsWords (strLower heading)).filter fun w => 3 < w.length).take 2).foldl
        addTag acc)
    tags
  tags.take 10

/-- `generateChecksum`: MD5 of the extracted content. -/
def generateChecksum (content : String) : String :=
  md5Hex content

/-- The state after `processDocument`'s first two steps: the
rate-limit acquire and the start of the `axios.get` (recorded as a
document `fetchStart`; the fetch's duration advances the clock). -/
def fetchState (env : Env) (st : RunState) (url : String) : RunState :=
  let st := checkRateLimit env.config st
  { st with trace := st.trace ++ [.fetchStart .doc url st.clock],
            clock := st.clock + env.fetchDuration url }

/-- `processDocument`: rate-limit acquire, fetch, extract, build the
record.  Every `return null` path of the source (fetch error, non-200
status, missing title, thin content, invalid URL) is a `none`; the
fetch itself always starts after the rate-limit call.  `lastModified`
is the caller's value (`none` = Invalid Date). -/
def processDocument (env : Env) (st : RunState) (url : String)
    (lastModified : Option Nat) (source : String) :
    Option Document × RunState :=
  let st := fetchState env st url
  match env.page url with
  | .fetchError _ => (none, st)
  | .ok status page =>
    if status ≠ 200 then (none, st)
    else if page.title = "" then (none, st)
    else if (strTrim page.contentHtml).length < 100 then (none, st)
    else
      match extractCategory url page with
      | none => (none, st)
      | some category =>
        let platform := extractPlatform url category
        let type := extractType url category
        let tags := extractTags page category platform
        match generateDocumentId url with
        | none => (none, st)
        | some id =>
          let checksum := generateChecksum page.contentHtml
          let markdownContent := env.turndown page.contentHtml
          (some { id, url, title := page.title, content := markdownContent,
                  lastModified, category, tags, type, platform, source,
                  checksum, createdAt := st.clock, updatedAt := st.clock },
           st)

end DocumentProcessor

/-! ## Update orchestrator (src/sitemap-updater.ts) -/

/-- The outcome record of `processEntry`:
`{ action?, document?, error? }`. -/
structure EntryResult where
  action : Option String := none
  document : Option Document := none
  error : Option String := none
deriving DecidableEq, Repr

namespace SitemapUpdater

/-- `extractSourceFromUrl`: host-based source enumeration with a
`developers` fallback. -/
def extractSourceFromUrl (sitemapUrl : String) : String :=
  if strContains sitemapUrl "developers.moengage.com" then "developers"
  else if strContains sitemapUrl "help.moengage.com" then "help"
  else if strContains sitemapUrl "partners.moengage.com" then "partners"
  else "developers"

/-- `fetchSitemap`: the `axios.get` is performed directly — no
rate-limiter call — then the status and `urlset`/`url` checks; every
throw is an `Except.error` caught by the caller's loop. -/
def fetchSitemap (env : Env) (st : RunState) (sitemapUrl : String) :
    Except String (List SitemapEntry) × RunState :=
  let st := { st with
      trace := st.trace ++ [.fetchStart .sitemap sitemapUrl st.clock],
      clock := st.clock + env.fetchDuration sitemapUrl }
  match env.sitemap sitemapUrl with
  | .fetchError msg => (.error msg, st)
  | .ok status entries =>
    if status ≠ 200 then
      (.error ("Failed to fetch sitemap: HTTP " ++ toString status), st)
    else
      match entries with
      | none => (.error "Invalid sitemap format: missing urlset or url elements", st)
      | some urls => (.ok urls, st)

/-- The sitemap loop of `performUpdate` (lines 45–57): per-URL
try/catch, successes tagged with their source and concatenated, each
failure contributing one error string and zero entries. -/
def collectSitemaps (env : Env) (st : RunState) :
    List String → List SourcedEntry × List String × RunState
  | [] => ([], [], st)
  | u :: rest =>
    match fetchSitemap env st u with
    | (.ok entries, st') =>
      let source := extractSourceFromUrl u
      let entriesWithSource := entries.map fun e => { toSitemapEntry := e, source }
      let (es, errs, st'') := collectSitemaps env st' rest
      (entriesWithSource ++ es, errs, st'')
    | (.error msg, st') =>
      let (es, errs, st'') := collectSitemaps env st' rest
      (es, ("Failed to fetch sitemap " ++ u ++ ": " ++ msg) :: errs, st'')

/-- The domain allow-list of `filterDocumentationEntries`. -/
def validDomains : List String :=
  ["developers.moengage.com/hc/", "help.moengage.com/hc/",
   "partners.moengage.com/hc/"]

/-- The exclusion list of `filterDocumentationEntries`. -/
def excludePatterns : List String :=
  ["/categories/", "/sections/", "/search", "/requests", "/subscriptions",
   "/signin", "/signup", "/community"]

/-- `filterDocumentationEntries`: keep documentation-path URLs that
match no exclusion pattern (pure, no I/O). -/
def filterDocumentationEntries (entries : List SourcedEntry) :
    List SourcedEntry :=
  entries.filter fun entry =>
    (validDomains.any fun d => strContains entry.loc d) &&
    !(excludePatterns.any fun p => strContains entry.loc p)

/-- `createBatches`: fixed-size chunks in order.  (With
`batchSize = 0` the JS loop never terminates; the model is total and
only instantiated with the positive configured sizes.) -/
def createBatches (items : List α) (batchSize : Nat) : List (List α) :=
  chunksOf batchSize items

/-- The skip test `lastUpdateTime && lastModified <= lastUpdateTime`:
false when there is no last-run timestamp, and false for an Invalid
Date (`NaN <= t` is false). -/
def shouldSkip (lastUpdateTime lastModified : Option Nat) : Bool :=
  match lastUpdateTime, lastModified with
  | some t, some m => decide (m ≤ t)
  | _, _ => false

/-- `processEntry`: skip rule, prior-record lookup by the
orchestrator's id, fetch + extract, checksum comparison, upsert.  The
skip path returns before touching any state.  An entry with no
`lastmod` gets `new Date()` (the current clock); an unparseable
`lastmod` is an Invalid Date (`none`), which never satisfies the skip
comparison.  The catch wrapper turns an invalid URL into the entry's
error string. -/
def processEntry (env : Env) (st : RunState) (entry : SourcedEntry)
    (lastUpdateTime : Option Nat) : EntryResult × RunState :=
  let url := entry.loc
  let lastModified : Option Nat :=
    match entry.lastmod with
    | some s => env.parseDate s
    | none => some st.clock
  if shouldSkip lastUpdateTime lastModified then
    ({ action := some "skipped" }, st)
  else
    match generateDocumentId url with
    | none =>
      ({ error := some ("Failed to process " ++ url ++ ": Invalid URL") }, st)
    | some documentId =>
      let existingDocument := Database.getDocument st.store documentId
      match DocumentProcessor.processDocument env st url lastModified
          entry.source with
      | (none, st') =>
        ({ error := some ("Failed to process document: " ++ url) }, st')
      | (some newDocument, st') =>
        match existingDocument with
        | some ex =>
          if ex.checksum = newDocument.checksum then
            ({ action := some "skipped" }, st')
          else
            ({ action := some "updated", document := some newDocument },
             { st' with
               store := Database.upsertDocument st'.store newDocument st'.clock })
        | none =>
          ({ action := some "created", document := some newDocument },
           { st' with
             store := Database.upsertDocument st'.store newDocument st'.clock })

/-- One batch: `Promise.allSettled` over `processEntry`, linearised in
entry order by the single-threaded event loop.  All promises fulfill
(`processEntry` catches internally), so the `rejected` branch of the
result loop is dead. -/
def runBatch (env : Env) (st : RunState) (lastUpdateTime : Option Nat) :
    List SourcedEntry → List EntryResult × RunState
  | [] => ([], st)
  | e :: rest =>
    let (r, st') := processEntry env st e lastUpdateTime
    let (rs, st'') := runBatch env st' lastUpdateTime rest
    (r :: rs, st'')

/-- The per-result tally of `performUpdate` (lines 81–104). -/
def tallyResults (status : StatusCounts) (results : List EntryResult) :
    StatusCounts :=
  results.foldl
    (fun s r =>
      match r.error with
      | some e => { s with errors := s.errors ++ [e] }
      | none =>
        match r.document with
        | some _ =>
          if r.action = some "created" then
            { s with newDocuments := s.newDocuments + 1 }
          else if r.action = some "updated" then
            { s with updatedDocuments := s.updatedDocuments + 1 }
          else s
        | none => s)
    status

/-- The batch loop of `performUpdate`: batches strictly sequential,
with a 1000 ms pause between consecutive batches. -/
def runBatches (env : Env) (st : RunState) (lastUpdateTime : Option Nat)
    (status : StatusCounts) :
    List (List SourcedEntry) → StatusCounts × RunState
  | [] => (status, st)
  | b :: rest =>
    let (results, st') := runBatch env st lastUpdateTime b
    let status' := tallyResults status results
    let st'' := if rest.isEmpty then st'
                else { st' with clock := st'.clock + 1000 }
    runBatches env st'' lastUpdateTime status' rest

/-- The deletion loop inside `cleanupDeletedDocuments`, over the
snapshot `existingDocuments`. -/
def cleanupLoop (currentUrls : List String) :
    List Document → RunState → Nat → Nat × RunState
  | [], st, n => (n, st)
  | d :: rest, st, n =>
    if currentUrls.contains d.url then cleanupLoop currentUrls rest st n
    else
      cleanupLoop currentUrls rest
        { st with store := Database.deleteDocument st.store d.id } (n + 1)

/-- `cleanupDeletedDocuments`: fetch the up-to-10000 most recently
updated records, then delete every one whose `url` is not among the
current entries.  (The catch returning 0 is dead here: the modelled
store calls are total.) -/
def cleanupDeletedDocuments (st : RunState)
    (currentEntries : List SourcedEntry) : Nat × RunState :=
  let existingDocuments := Database.getRecentUpdates st.store none 10000
  let currentUrls := currentEntries.map (·.loc)
  cleanupLoop currentUrls existingDocuments st 0

/-- Phases 1–4 of `performUpdate` (lines 41–114): sitemap collection,
filtering, the incremental-skip lookup, the batched crawl, and the
deletion sweep.  Every failure inside these phases is caught per
sitemap or per entry, so this part is total. -/
def runCore (env : Env) (st : RunState) (forceUpdate : Bool) :
    StatusCounts × RunState :=
  let status : StatusCounts := {}
  let (allSitemapEntries, errs, st) := collectSitemaps env st env.config.sitemapUrls
  let status := { status with errors := errs }
  let docEntries := filterDocumentationEntries allSitemapEntries
  let lastUpdate := if forceUpdate then none
                    else Database.getLastUpdateStatus st.store
  let lastUpdateTime := lastUpdate.map (·.lastUpdate)
  let batches := createBatches docEntries env.config.maxConcurrentUpdates
  let (status, st) := runBatches env st lastUpdateTime status batches
  let (deletedCount, st) := cleanupDeletedDocuments st docEntries
  ({ status with deletedDocuments := deletedCount }, st)

/-- `performUpdate`: the full run, `runCore` followed by the count,
ledger write, and the surrounding try/catch.  The modelled run-level
failure points are the two store calls outside any inner catch —
`getTotalDocumentCount` (`env.countFails`) and `saveUpdateStatus`
(`env.saveStatusFails`); the catch block saves a failed status carrying
the fields mutated so far plus the terminating error, and a failing
save inside the catch propagates (`Except.error`). -/
def performUpdate (env : Env) (st : RunState) (forceUpdate : Bool) :
    Except String UpdateStatus × RunState :=
  let startTime := st.clock
  let (status, st) := runCore env st forceUpdate
  if env.countFails then
    let failedStatus := { status with
        errors := status.errors ++ ["Update failed: " ++ env.countErrMsg],
        duration := st.clock - startTime }
    if env.saveStatusFails then (.error env.saveErrMsg, st)
    else
      (.ok { failedStatus with lastUpdate := st.clock },
       { st with store := Database.saveUpdateStatus st.store failedStatus st.clock })
  else
    let status := { status with
        totalDocuments := Database.getTotalDocumentCount st.store,
        duration := st.clock - startTime }
    if env.saveStatusFails then (.error env.saveErrMsg, st)
    else
      (.ok { status with lastUpdate := st.clock },
       { st with store := Database.saveUpdateStatus st.store status st.clock })

end SitemapUpdater

/-! ## Scheduler and update triggers
(src/scheduler.ts, src/index.ts, src/http-server.ts) -/

/-- A process's view of the scheduler: the `isRunning` flag plus the
underlying run state (clock, limiter, shared store). -/
structure SchedulerState where
  isRunning : Bool
  run : RunState

namespace UpdateScheduler

/-- `UpdateScheduler.performUpdate`: returns immediately when a run is
in progress; otherwise sets `isRunning`, awaits the updater (catching
any rejection), and clears `isRunning` in the `finally`.  The Boolean
reports whether a run was performed. -/
def performUpdate (env : Env) (s : SchedulerState) (forceUpdate : Bool) :
    SchedulerState × Bool :=
  if s.isRunning then (s, false)
  else
    let (_, st') := SitemapUpdater.performUpdate env s.run forceUpdate
    ({ isRunning := false, run := st' }, true)

/-- The cron callback installed by `startScheduler`: skip with a log
entry when `isRunning`, else run the guarded `performUpdate`. -/
def scheduledTrigger (env : Env) (s : SchedulerState) :
    SchedulerState × Bool :=
  if s.isRunning then (s, false)
  else performUpdate env s false

end UpdateScheduler

/-- `handleTriggerUpdate` (src/index.ts): report "already running" when
`isUpdateRunning()`, else fire the guarded scheduler run in the
background (modelled as run to completion).  The Boolean reports
whether a run was performed. -/
def mcpTriggerUpdate (env : Env) (s : SchedulerState) (force : Bool) :
    SchedulerState × Bool :=
  if s.isRunning then (s, false)
  else UpdateScheduler.performUpdate env s force

/-- The `POST /update` handler (src/http-server.ts): awaits
`sitemapUpdater.performUpdate(true)` directly on the updater instance —
there is no `isRunning` check of any kind. -/
def httpPostUpdate (env : Env) (s : SchedulerState) :
    SchedulerState × Except String UpdateStatus :=
  let (result, st') := SitemapUpdater.performUpdate env s.run true
  ({ s with run := st' }, result)

/-! ## Helper lemmas -/

/-- `checkRateLimit` appends exactly one `acquire` event, stamped with
its completion clock. -/
theorem checkRateLimit_trace (cfg : Config) (st : RunState) :
    (DocumentProcessor.checkRateLimit cfg st).trace
      = st.trace ++ [.acquire (DocumentProcessor.checkRateLimit cfg st).clock] := by
  simp only [DocumentProcessor.checkRateLimit]
  split <;> rfl

/-- `checkRateLimit` does not touch the store. -/
theorem checkRateLimit_store (cfg : Config) (st : RunState) :
    (DocumentProcessor.checkRateLimit cfg st).store = st.store := by
  simp only [DocumentProcessor.checkRateLimit]
  split <;> rfl

/-- The state coming out of `processDocument` is always the post-fetch
state: nothing after the fetch touches the threaded state. -/
theorem processDocument_state (env : Env) (st : RunState) (url : String)
    (lm : Option Nat) (source : String) :
    (DocumentProcessor.processDocument env st url lm source).2
      = DocumentProcessor.fetchState env st url := by
  simp only [DocumentProcessor.processDocument]
  cases hp : env.page url
  · rfl
  · (repeat' split) <;> rfl

/-- `processDocument` appends exactly an `acquire` then the document
`fetchStart`, both stamped with the post-acquire clock. -/
theorem processDocument_trace (env : Env) (st : RunState) (url : String)
    (lm : Option Nat) (source : String) :
    (DocumentProcessor.processDocument env st url lm source).2.trace
      = st.trace
        ++ [.acquire (DocumentProcessor.checkRateLimit env.config st).clock,
            .fetchStart .doc url
              (DocumentProcessor.checkRateLimit env.config st).clock] := by
  rw [processDocument_state]
  simp [DocumentProcessor.fetchState, checkRateLimit_trace]

/-- `processDocument` never writes the store. -/
theorem processDocument_store (env : Env) (st : RunState) (url : String)
    (lm : Option Nat) (source : String) :
    (DocumentProcessor.processDocument env st url lm source).2.store
      = st.store := by
  rw [processDocument_state]
  simp [DocumentProcessor.fetchState, checkRateLimit_store]

/-- Whether an event is the start of a document fetch of `url`. -/
def isDocFetchOf (url : String) : Event → Bool
  | .fetchStart .doc u _ => u = url
  | _ => false

/-! ## Claim C1 -/

/-- C1 (code bug): the claim says the id the orchestrator computes for
the prior-record lookup and the id the extractor stores are the same
pure function of the URL.  They are not: on an article URL the
orchestrator's `SitemapUpdater.generateDocumentId` takes its
`articles/(\d+)` branch and yields `article-123`, while
`DocumentProcessor.generateDocumentId` has no such branch and yields
the last path segment `123-intro`, so the lookup misses the row the
extractor stores. -/
theorem c1_generateDocumentId_divergence :
    SitemapUpdater.generateDocumentId
        "https://help.moengage.com/hc/en-us/articles/123-intro"
      = some "article-123"
    ∧ DocumentProcessor.generateDocumentId
        "https://help.moengage.com/hc/en-us/articles/123-intro"
      = some "123-intro" := by
  constructor <;> decide

/-! ## Claim C4 -/

/-- C4: when a last-run timestamp is present and the entry's parsed
`lastModified` is at or before it, `processEntry` returns the skipped
outcome with the run state completely untouched — in particular no
fetch; and an entry with no `lastmod` (whose `lastModified` becomes the
current clock, strictly after any past run timestamp) always reaches
the fetch: a document `fetchStart` for its URL is appended to the
trace. -/
theorem c4_skip_rule (env : Env) (st : RunState) (entry : SourcedEntry) :
    (∀ t s m, entry.lastmod = some s → env.parseDate s = some m → m ≤ t →
      SitemapUpdater.processEntry env st entry (some t)
        = ({ action := some "skipped" }, st))
    ∧ (∀ lut did, entry.lastmod = none →
        (∀ u, lut = some u → u < st.clock) →
        SitemapUpdater.generateDocumentId entry.loc = some did →
        (((SitemapUpdater.processEntry env st entry lut).2.trace.drop
            st.trace.length).any (isDocFetchOf entry.loc)) = true) := by
  constructor
  · intro t s m hs hm hle
    have hskip : SitemapUpdater.shouldSkip (some t) (some m) = true := by
      simp [SitemapUpdater.shouldSkip, hle]
    simp only [SitemapUpdater.processEntry, hs, hm, hskip, if_true]
  · intro lut did hnone hlt hdid
    have hskip : SitemapUpdater.shouldSkip lut (some st.clock) = false := by
      cases lut with
      | none => rfl
      | some u => simp [SitemapUpdater.shouldSkip, Nat.not_le.mpr (hlt u rfl)]
    simp only [SitemapUpdater.processEntry, hnone, hskip, Bool.false_eq_true,
      if_false, hdid]
    cases hpd : DocumentProcessor.processDocument env st entry.loc
        (some st.clock) entry.source with
    | mk od st' =>
      have htr : st'.trace
          = st.trace
            ++ [.acquire (DocumentProcessor.checkRateLimit env.config st).clock,
                .fetchStart .doc entry.loc
                  (DocumentProcessor.checkRateLimit env.config st).clock] := by
        have h := processDocument_trace env st entry.loc (some st.clock) entry.source
        rw [hpd] at h
        exact h
      cases od with
      | none => simp [htr, List.drop_left, isDocFetchOf]
      | some d =>
        cases hex : Database.getDocument st.store did with
        | none => simp [hex, htr, List.drop_left, isDocFetchOf]
        | some ex =>
          simp only [hex]
          split <;> simp [htr, List.drop_left, isDocFetchOf]

/-- A minimal concrete environment for witnesses: all fetches fail and
exactly one date string parses. -/
def witEnv : Env :=
  { config := { sitemapUrls := [], rateLimitRequests := 10,
                rateLimitWindow := 1000, maxConcurrentUpdates := 5 },
    sitemap := fun _ => .fetchError "network error",
    page := fun _ => .fetchError "network error",
    turndown := fun s => s,
    parseDate := fun s => if s = "2024-01-01" then some 5 else none }

/-- An empty run state at clock 10. -/
def witState : RunState :=
  { clock := 10, limiter := [], store := { documents := [], statusRows := [] },
    trace := [] }

/-- An entry carrying a `lastmod` that parses to 5. -/
def witEntryA : SourcedEntry :=
  { loc := "https://x.com/a", lastmod := some "2024-01-01",
    source := "developers" }

/-- An entry with no `lastmod`. -/
def witEntryB : SourcedEntry :=
  { loc := "https://x.com/b", lastmod := none, source := "developers" }

/-- Witness for C4: with the last run at 5 an entry modified at 5 is
skipped untouched; an entry without `lastmod` is fetched even though
the last run (at 3) is earlier than the clock. -/
theorem c4_skip_rule_witness :
    SitemapUpdater.processEntry witEnv witState witEntryA (some 5)
      = ({ action := some "skipped" }, witState)
    ∧ (((SitemapUpdater.processEntry witEnv witState witEntryB
          (some 3)).2.trace.drop witState.trace.length).any
        (isDocFetchOf witEntryB.loc)) = true :=
  ⟨(c4_skip_rule witEnv witState witEntryA).1 5 "2024-01-01" 5 rfl (by decide)
      (by decide),
   (c4_skip_rule witEnv witState witEntryB).2 (some 3) "b" rfl
      (by intro u h; cases h; decide) (by decide)⟩

/-! ## Claim C6 -/

/-- Start times of all fetch events in a trace. -/
def fetchTimes : List Event → List Nat
  | [] => []
  | .fetchStart _ _ t :: rest => t :: fetchTimes rest
  | .acquire _ :: rest => fetchTimes rest

/-- Number of fetch starts within the trailing window of width `w`
ending at time `t`. -/
def windowCount (times : List Nat) (t w : Nat) : Nat :=
  (times.filter fun s => s ≤ t && t - s < w).length

/-- The claimed bound: at most `n` fetch operations start within any
trailing window of width `w`. -/
def WindowBounded (n w : Nat) (times : List Nat) : Prop :=
  ∀ t, windowCount times t w ≤ n

/-- Environment for the C6 counterexample: two configured sitemaps, a
rate limit of one request per 1000 ms, one-millisecond fetches. -/
def c6env : Env :=
  { config := { sitemapUrls := ["https://developers.moengage.com/hc/sitemap.xml",
                                "https://help.moengage.com/hc/sitemap.xml"],
                rateLimitRequests := 1, rateLimitWindow := 1000,
                maxConcurrentUpdates := 5 },
    sitemap := fun _ => .fetchError "timeout",
    page := fun _ => .fetchError "timeout",
    turndown := fun s => s,
    parseDate := fun _ => none,
    fetchDuration := fun _ => 1 }

/-- An empty run state at clock 0. -/
def c6state : RunState :=
  { clock := 0, limiter := [], store := { documents := [], statusRows := [] },
    trace := [] }

/-- C6 counterexample: the sitemap phase of a run starts both sitemap
fetches (at times 0 and 1) inside one 1000 ms window although the
configured limit is one fetch per window — sitemap fetches never pass
through the rate limiter. -/
theorem c6_sitemap_fetches_exceed_window :
    ¬ WindowBounded c6env.config.rateLimitRequests c6env.config.rateLimitWindow
        (fetchTimes (SitemapUpdater.collectSitemaps c6env c6state
          c6env.config.sitemapUrls).2.2.trace) := by
  intro h
  exact absurd (h 1) (by decide)

/-- C6 (amended): only document fetches pass through the shared
sliding-window rate limiter — `processDocument` acquires the limiter
and then starts its fetch — while `fetchSitemap` performs its fetch
directly, leaving the limiter untouched and recording no
acquisition. -/
theorem c6_limiter_routing :
    ∀ (env : Env) (st : RunState) (u : String) (lm : Option Nat)
      (src : String),
      (SitemapUpdater.fetchSitemap env st u).2.limiter = st.limiter
      ∧ (SitemapUpdater.fetchSitemap env st u).2.trace
          = st.trace ++ [.fetchStart .sitemap u st.clock]
      ∧ (DocumentProcessor.processDocument env st u lm src).2.limiter
          = (DocumentProcessor.checkRateLimit env.config st).limiter
      ∧ (DocumentProcessor.processDocument env st u lm src).2.trace
          = st.trace
            ++ [.acquire (DocumentProcessor.checkRateLimit env.config st).clock,
                .fetchStart .doc u
                  (DocumentProcessor.checkRateLimit env.config st).clock] := by
  intro env st u lm src
  refine ⟨?_, ?_, ?_, ?_⟩
  · simp only [SitemapUpdater.fetchSitemap]
    cases env.sitemap u
    · rfl
    · (repeat' split) <;> rfl
  · simp only [SitemapUpdater.fetchSitemap]
    cases env.sitemap u
    · rfl
    · (repeat' split) <;> rfl
  · rw [processDocument_state]; rfl
  · exact processDocument_trace env st u lm src

/-! ## Claim C3 -/

/-- The extracted content of a page response (the `extractContent`
output the checksum is taken over). -/
def pageHtml : PageResp → String
  | .ok _ p => p.contentHtml
  | .fetchError _ => ""

/-- A simple tag-stripping conversion used as a concrete `turndown`
instance: characters between `<` and `>` are dropped. -/
def stripTags : Bool → List Char → List Char
  | _, [] => []
  | _, '<' :: cs => stripTags true cs
  | true, '>' :: cs => stripTags false cs
  | true, _ :: cs => stripTags true cs
  | false, c :: cs => c :: stripTags false cs

/-- Extracted HTML for the C3 counterexample: a paragraph of 100
characters. -/
def c3html : String :=
  ⟨'<' :: 'p' :: '>' :: (List.replicate 100 'a' ++ ['<', '/', 'p', '>'])⟩

/-- The page the C3 environment serves. -/
def c3page : Page :=
  { title := "Sample", contentHtml := c3html, breadcrumbText := "",
    headingsText := "" }

/-- Environment for C3: every document URL yields `c3page`; `turndown`
strips tags. -/
def c3env : Env :=
  { config := { sitemapUrls := [], rateLimitRequests := 10,
                rateLimitWindow := 1000, maxConcurrentUpdates := 5 },
    sitemap := fun _ => .fetchError "timeout",
    page := fun _ => .ok 200 c3page,
    turndown := fun s => ⟨stripTags false s.data⟩,
    parseDate := fun _ => none }

/-- A concrete document URL for C3. -/
def c3url : String := "https://developers.moengage.com/hc/en-us/sample-page"

set_option maxRecDepth 1000000 in
/-- C3 counterexample: a successfully processed page whose stored
record's checksum is **not** the hash of the body as stored — the
checksum is the MD5 of the extracted HTML (`<p>aaa…</p>`), while the
stored body is the markdown conversion (`aaa…`). -/
theorem c3_checksum_not_of_stored_body :
    ((DocumentProcessor.processDocument c3env c6state c3url none
        "developers").1.map fun d => d.checksum == md5Hex d.content)
      = some false := by
  decide

/-- C3 (amended): for every successfully processed page the stored
checksum is the MD5 of the extracted content HTML — computed after
boilerplate removal but **before** the markdown conversion that
produces the stored body — so two pages with identical extracted HTML
have identical checksums, while identical stored bodies need not. -/
theorem c3_checksum_of_extracted_html (env : Env) (st : RunState)
    (url : String) (lm : Option Nat) (src : String) (doc : Document)
    (st' : RunState)
    (h : DocumentProcessor.processDocument env st url lm src
          = (some doc, st')) :
    doc.checksum = md5Hex (pageHtml (env.page url))
    ∧ doc.content = env.turndown (pageHtml (env.page url)) := by
  simp only [DocumentProcessor.processDocument] at h
  repeat' split at h
  all_goals simp only [Prod.mk.injEq] at h
  all_goals obtain ⟨h1, h2⟩ := h
  all_goals try exact Option.noConfusion h1
  obtain rfl := Option.some_inj.mp h1
  simp_all [pageHtml, DocumentProcessor.generateChecksum]

/-- A placeholder document (default for `Option.getD`). -/
def dummyDoc : Document :=
  { id := "", url := "", title := "", content := "", lastModified := none,
    category := "", tags := [], type := "", platform := "", source := "",
    checksum := "", createdAt := 0, updatedAt := 0 }

/-- The concrete C3 run. -/
def c3run : Option Document × RunState :=
  DocumentProcessor.processDocument c3env c6state c3url none "developers"

/-- The document the concrete C3 run produces. -/
def c3doc : Document := c3run.1.getD dummyDoc

set_option maxRecDepth 1000000 in
/-- Witness for C3's amended statement at the concrete run. -/
theorem c3_checksum_of_extracted_html_witness :
    c3doc.checksum = md5Hex (pageHtml (c3env.page c3url))
    ∧ c3doc.content = c3env.turndown (pageHtml (c3env.page c3url)) :=
  c3_checksum_of_extracted_html c3env c6state c3url none "developers" c3doc
    c3run.2 (by decide)

/-! ## Claim C9 -/

/-- The pure outcome of fetching and parsing one sitemap; it does not
depend on the threaded run state. -/
def sitemapOutcome (env : Env) (u : String) :
    Except String (List SitemapEntry) :=
  match env.sitemap u with
  | .fetchError msg => .error msg
  | .ok status entries =>
    if status ≠ 200 then
      .error ("Failed to fetch sitemap: HTTP " ++ toString status)
    else
      match entries with
      | none => .error "Invalid sitemap format: missing urlset or url elements"
      | some urls => .ok urls

/-- `fetchSitemap`'s result is `sitemapOutcome`, whatever the state. -/
theorem fetchSitemap_fst (env : Env) (st : RunState) (u : String) :
    (SitemapUpdater.fetchSitemap env st u).1 = sitemapOutcome env u := by
  simp only [SitemapUpdater.fetchSitemap, sitemapOutcome]
  cases env.sitemap u
  · rfl
  · (repeat' split) <;> rfl

/-- Characterisation of the sitemap-collection loop: entries are the
concatenation of each non-failing sitemap's tagged entries, errors hold
one string per failing sitemap, in order. -/
theorem collectSitemaps_spec (env : Env) (st : RunState)
    (urls : List String) :
    (SitemapUpdater.collectSitemaps env st urls).1
      = urls.flatMap (fun u =>
          match sitemapOutcome env u with
          | .ok es => es.map fun e =>
              { toSitemapEntry := e,
                source := SitemapUpdater.extractSourceFromUrl u }
          | .error _ => [])
    ∧ (SitemapUpdater.collectSitemaps env st urls).2.1
      = urls.filterMap (fun u =>
          match sitemapOutcome env u with
          | .ok _ => none
          | .error m =>
            some ("Failed to fetch sitemap " ++ u ++ ": " ++ m)) := by
  induction urls generalizing st with
  | nil => exact ⟨rfl, rfl⟩
  | cons u rest ih =>
    have hf := fetchSitemap_fst env st u
    simp only [SitemapUpdater.collectSitemaps]
    cases hr : SitemapUpdater.fetchSitemap env st u with
    | mk r st' =>
      rw [hr] at hf
      simp only at hf
      cases hrec : SitemapUpdater.collectSitemaps env st' rest with
      | mk es p =>
        cases p with
        | mk errs st2 =>
          have ih1 := (ih st').1
          have ih2 := (ih st').2
          rw [hrec] at ih1 ih2
          simp only at ih1 ih2
          cases r with
          | ok entries =>
            simp only [List.flatMap_cons, List.filterMap_cons, ← hf, hrec,
              ih1, ih2]
            constructor <;> simp
          | error msg =>
            simp only [List.flatMap_cons, List.filterMap_cons, ← hf, hrec,
              ih1, ih2]
            constructor <;> simp

/-- C9: a failing sitemap never aborts the others — the collected entry
sequence is exactly the concatenation of each non-failing sitemap's
entries (tagged with that sitemap's source), and the error list holds
exactly one entry per failing sitemap, in order. -/
theorem c9_sitemap_failure_isolated (env : Env) (st : RunState)
    (urls : List String) :
    (SitemapUpdater.collectSitemaps env st urls).1
      = urls.flatMap (fun u =>
          match sitemapOutcome env u with
          | .ok es => es.map fun e =>
              { toSitemapEntry := e,
                source := SitemapUpdater.extractSourceFromUrl u }
          | .error _ => [])
    ∧ (SitemapUpdater.collectSitemaps env st urls).2.1
      = urls.filterMap (fun u =>
          match sitemapOutcome env u with
          | .ok _ => none
          | .error m =>
            some ("Failed to fetch sitemap " ++ u ++ ": " ++ m)) :=
  collectSitemaps_spec env st urls

/-! ## Claim C2 -/

/-- The unchanged page body served in both C2 runs. -/
def c2page : Page :=
  { title := "Intro", contentHtml := c3html, breadcrumbText := "",
    headingsText := "" }

/-- The article URL of the single sitemap entry (no `lastmod`). -/
def c2url : String := "https://help.moengage.com/hc/en-us/articles/123-intro"

/-- Environment for C2: one sitemap whose single entry carries no
`lastmod`, identical contents on both runs. -/
def c2env : Env :=
  { config := { sitemapUrls := ["https://help.moengage.com/hc/sitemap.xml"],
                rateLimitRequests := 10, rateLimitWindow := 1000,
                maxConcurrentUpdates := 5 },
    sitemap := fun _ => .ok 200 (some [{ loc := c2url }]),
    page := fun _ => .ok 200 c2page,
    turndown := fun s => ⟨stripTags false s.data⟩,
    parseDate := fun _ => none }

/-- The clean starting state of the first C2 run. -/
def c2start : RunState :=
  { clock := 0, limiter := [], store := { documents := [], statusRows := [] },
    trace := [] }

/-- The first C2 run. -/
def c2run1 : Except String UpdateStatus × RunState :=
  SitemapUpdater.performUpdate c2env c2start false

/-- The state one minute after the first run. -/
def c2state2 : RunState := { c2run1.2 with clock := c2run1.2.clock + 60000 }

/-- The second C2 run, against identical sitemap contents and page
bodies. -/
def c2run2 : Except String UpdateStatus × RunState :=
  SitemapUpdater.performUpdate c2env c2state2 false

set_option maxRecDepth 1000000 in
/-- C2 (code bug): running `performUpdate` twice in succession with
identical sitemap contents and identical page bodies does **not**
yield `newDocuments = 0` on the second run: the entry has no `lastmod`
(so the skip rule cannot apply), the orchestrator looks the prior
record up under `article-123` while it was stored under `123-intro`
(the C1 id divergence), the checksum comparison is skipped, and the
unchanged document is counted as `created` again — the second run
reports `newDocuments = 1`, though the total document count is indeed
unchanged. -/
theorem c2_second_run_counts_created_again :
    (c2run2.1.toOption.map fun s => (s.newDocuments, s.updatedDocuments))
      = some (1, 0)
    ∧ c2run2.2.store.documents.length = c2run1.2.store.documents.length := by
  decide

/-! ## Claim C5 -/

/-- Characterisation of the deletion loop: it deletes exactly the
examined records whose url is absent, counts them, and touches nothing
else. -/
theorem cleanupLoop_spec (urls : List String) (docs : List Document)
    (st : RunState) (n : Nat) :
    SitemapUpdater.cleanupLoop urls docs st n
      = (n + (docs.filter fun d => !(urls.contains d.url)).length,
         { st with store := { st.store with
             documents := st.store.documents.filter fun x =>
               (docs.filter fun d => !(urls.contains d.url)).all fun e =>
                 x.id ≠ e.id } }) := by
  induction docs generalizing st n with
  | nil => simp [SitemapUpdater.cleanupLoop]
  | cons d rest ih =>
    simp only [SitemapUpdater.cleanupLoop]
    cases hc : urls.contains d.url with
    | true =>
      have hm : d.url ∈ urls := by simpa using hc
      simp [ih, List.filter_cons, hm]
    | false =>
      simp only [Bool.false_eq_true, if_false, ih, List.filter_cons, hc,
        Bool.not_false, if_true, List.length_cons, Prod.mk.injEq,
        RunState.mk.injEq, Store.mk.injEq, Database.deleteDocument,
        List.filter_filter]
      refine ⟨by omega, trivial, trivial, ⟨?_, trivial⟩, trivial⟩
      apply List.filter_congr
      intro x _
      simp [List.all_cons, Bool.and_comm]

/-- Records for the oversized C5 store: unary id and url of length `i`,
update time decreasing in `i`. -/
def mkDoc (i : Nat) : Document :=
  { id := ⟨List.replicate i 'a'⟩, url := ⟨List.replicate i 'b'⟩,
    title := "", content := "", lastModified := none, category := "",
    tags := [], type := "", platform := "", source := "", checksum := "",
    createdAt := 0, updatedAt := 20000 - i }

/-- `k` consecutive records starting at index `i`. -/
def mkFrom : Nat → Nat → List Document
  | _, 0 => []
  | i, k + 1 => mkDoc i :: mkFrom (i + 1) k

/-- `mkFrom` is already sorted by decreasing `updatedAt`. -/
theorem sortDesc_mkFrom :
    ∀ (k i : Nat), i + k ≤ 20000 →
      sortDesc (·.updatedAt) (mkFrom i k) = mkFrom i k := by
  intro k
  induction k with
  | zero => intro i _; rfl
  | succ k ih =>
    intro i hik
    have hr : sortDesc (·.updatedAt) (mkFrom (i + 1) k) = mkFrom (i + 1) k :=
      ih (i + 1) (by omega)
    simp only [mkFrom, sortDesc, hr]
    cases k with
    | zero => rfl
    | succ k' =>
      simp only [mkFrom, insDesc, mkDoc]
      rw [if_pos (by omega)]

/-- Taking from `mkFrom` is `mkFrom` of the minimum. -/
theorem take_mkFrom :
    ∀ (k i n : Nat), (mkFrom i k).take n = mkFrom i (min n k) := by
  intro k
  induction k with
  | zero => intro i n; simp [mkFrom]
  | succ k ih =>
    intro i n
    cases n with
    | zero => simp [mkFrom]
    | succ n =>
      simp only [mkFrom, List.take_succ_cons, ih, Nat.succ_min_succ]

/-- Membership in `mkFrom`. -/
theorem mkDoc_mem_mkFrom :
    ∀ (k i j : Nat), i ≤ j → j < i + k → mkDoc j ∈ mkFrom i k := by
  intro k
  induction k with
  | zero => intro i j _ h; omega
  | succ k ih =>
    intro i j hij hjk
    rcases Nat.eq_or_lt_of_le hij with h | h
    · subst h; exact List.mem_cons_self ..
    · exact List.mem_cons_of_mem _ (ih (i + 1) j h (by omega))

/-- Ids in `mkFrom i k` all differ from the id of a later record. -/
theorem mkFrom_all_ne :
    ∀ (k i m : Nat), i + k ≤ m →
      ((mkFrom i k).all fun e => decide ((mkDoc m).id ≠ e.id)) = true := by
  intro k
  induction k with
  | zero => intro i m _; rfl
  | succ k ih =>
    intro i m him
    simp only [mkFrom, List.all_cons, Bool.and_eq_true, decide_eq_true_eq]
    refine ⟨?_, ih (i + 1) m (by omega)⟩
    intro heq
    have hdata := congrArg String.data heq
    simp only [mkDoc] at hdata
    have := congrArg List.length hdata
    simp only [List.length_replicate] at this
    omega

/-- URL A of the C5 deletion scenario (a non-article page, so both id
generators agree on `a1`). -/
def c5urlA : String := "https://help.moengage.com/hc/en-us/a1"

/-- The page served for URL A. -/
def c5pageA : Page :=
  { title := "A", contentHtml := c3html, breadcrumbText := "",
    headingsText := "" }

/-- The prior record for URL A (checksum matching the served page, so
the entry is counted unchanged). -/
def c5docA : Document :=
  { id := "a1", url := c5urlA, title := "A", content := "stored-a",
    lastModified := some 10, category := "Help - General", tags := [],
    type := "guide", platform := "general", source := "help",
    checksum := md5Hex c3html, createdAt := 50, updatedAt := 50 }

/-- The prior record for URL B, absent from the new sitemap. -/
def c5docB : Document :=
  { id := "b1", url := "https://help.moengage.com/hc/en-us/b1", title := "B",
    content := "stored-b", lastModified := some 10,
    category := "Help - General", tags := [], type := "guide",
    platform := "general", source := "help", checksum := "cafe",
    createdAt := 40, updatedAt := 40 }

/-- Environment for the C5 scenario: the new sitemap contains only
URL A. -/
def c5env : Env :=
  { config := { sitemapUrls := ["https://help.moengage.com/hc/sitemap.xml"],
                rateLimitRequests := 10, rateLimitWindow := 1000,
                maxConcurrentUpdates := 5 },
    sitemap := fun _ => .ok 200 (some [{ loc := c5urlA }]),
    page := fun _ => .ok 200 c5pageA,
    turndown := fun s => ⟨stripTags false s.data⟩,
    parseDate := fun _ => none }

/-- Start state of the C5 scenario: the store holds A and B. -/
def c5start : RunState :=
  { clock := 100, limiter := [], trace := [],
    store := { documents := [c5docA, c5docB], statusRows := [] } }

/-- The C5 run. -/
def c5run : Except String UpdateStatus × RunState :=
  SitemapUpdater.performUpdate c5env c5start false

set_option maxRecDepth 1000000 in
/-- C5 (amended): the deletion sweep deletes exactly the records whose
url is absent from the current eligible entry set **among the
up-to-10000 most recently updated records it examines** (the snapshot
`getRecentUpdates` returns), and counts them; and in the A/B scenario —
prior store holding A and B, new eligible set containing only A — one
run leaves the store holding exactly A and reports
`deletedDocuments = 1`. -/
theorem c5_deletion_sweep :
    (∀ (st : RunState) (entries : List SourcedEntry),
      SitemapUpdater.cleanupDeletedDocuments st entries
        = (((Database.getRecentUpdates st.store none 10000).filter fun d =>
              !((entries.map (·.loc)).contains d.url)).length,
           { st with store := { st.store with
               documents := st.store.documents.filter fun x =>
                 ((Database.getRecentUpdates st.store none 10000).filter
                     fun d => !((entries.map (·.loc)).contains d.url)).all
                   fun e => x.id ≠ e.id } }))
    ∧ (c5run.1.toOption.map fun s =>
          (s.newDocuments, s.updatedDocuments, s.deletedDocuments))
        = some (0, 0, 1)
    ∧ c5run.2.store.documents = [c5docA] := by
  refine ⟨?_, by decide, by decide⟩
  intro st entries
  simp only [SitemapUpdater.cleanupDeletedDocuments]
  rw [cleanupLoop_spec]
  simp

/-- The oversized store of the C5 counterexample: 10001 records, none
of whose urls appear in any entry set. -/
def bigState : RunState :=
  { clock := 0, limiter := [], trace := [],
    store := { documents := mkFrom 0 10001, statusRows := [] } }

/-- C5 counterexample: with 10001 stored records and an empty eligible
entry set, the sweep examines only the 10000 most recently updated
records; the oldest record — whose url is absent from the entry set —
survives, so "every stored record whose url is absent from the run's
eligible entry set is deleted by the sweep" is false. -/
theorem c5_record_beyond_cap_survives :
    mkDoc 10000 ∈
      (SitemapUpdater.cleanupDeletedDocuments bigState []).2.store.documents := by
  simp only [SitemapUpdater.cleanupDeletedDocuments]
  rw [cleanupLoop_spec]
  have hrec : Database.getRecentUpdates bigState.store none 10000
      = mkFrom 0 10000 := by
    simp only [Database.getRecentUpdates, bigState]
    rw [sortDesc_mkFrom 10001 0 (by omega), take_mkFrom 10001 0 10000]
    norm_num
  rw [hrec]
  simp only [List.map_nil, bigState]
  rw [List.mem_filter]
  constructor
  · exact mkDoc_mem_mkFrom 10001 0 10000 (by omega) (by omega)
  · have hall := mkFrom_all_ne 10000 0 10000 (by omega)
    simpa using hall

/-! ## Claim C7 -/

/-- Environment for C7: no configured sitemaps, so a triggered run
completes trivially and appends its ledger row. -/
def c7env : Env :=
  { config := { sitemapUrls := [], rateLimitRequests := 10,
                rateLimitWindow := 1000, maxConcurrentUpdates := 5 },
    sitemap := fun _ => .fetchError "timeout",
    page := fun _ => .fetchError "timeout",
    turndown := fun s => s,
    parseDate := fun _ => none }

/-- A scheduler state with a run in progress. -/
def c7busy : SchedulerState :=
  { isRunning := true,
    run := { clock := 0, limiter := [], trace := [],
             store := { documents := [], statusRows := [] } } }

/-- C7 counterexample: while a run is in progress
(`isRunning = true`), an HTTP `POST /update` trigger is **not**
rejected — the handler performs a complete update run and appends a
ledger entry, so overlapping work produces a second ledger entry. -/
theorem c7_http_trigger_runs_while_running :
    c7busy.isRunning = true
    ∧ (httpPostUpdate c7env c7busy).1.run.store.statusRows.length
        = c7busy.run.store.statusRows.length + 1 := by
  exact ⟨rfl, by decide⟩

/-- C7 (amended): the scheduled trigger and the MCP `trigger_update`
path are guarded by the scheduler's `isRunning` flag — received while
a run is in progress they no-op, leaving the state untouched and
starting no run — but the HTTP `POST /update` handler invokes the
updater directly with no in-progress check: its behaviour is entirely
independent of the `isRunning` flag. -/
theorem c7_trigger_guards (env : Env) (s : SchedulerState)
    (h : s.isRunning = true) :
    UpdateScheduler.scheduledTrigger env s = (s, false)
    ∧ mcpTriggerUpdate env s true = (s, false)
    ∧ mcpTriggerUpdate env s false = (s, false)
    ∧ (∀ b : Bool,
        httpPostUpdate env { s with isRunning := b }
          = ({ isRunning := b,
               run := (SitemapUpdater.performUpdate env s.run true).2 },
             (SitemapUpdater.performUpdate env s.run true).1)) := by
  refine ⟨?_, ?_, ?_, fun b => ?_⟩ <;>
    simp [UpdateScheduler.scheduledTrigger, mcpTriggerUpdate,
      httpPostUpdate, h]

/-- Witness for C7's amended statement: in the busy state both guarded
triggers no-op and the HTTP handler still runs. -/
theorem c7_trigger_guards_witness :
    UpdateScheduler.scheduledTrigger c7env c7busy = (c7busy, false)
    ∧ mcpTriggerUpdate c7env c7busy true = (c7busy, false)
    ∧ mcpTriggerUpdate c7env c7busy false = (c7busy, false)
    ∧ httpPostUpdate c7env { c7busy with isRunning := true }
        = ({ isRunning := true,
             run := (SitemapUpdater.performUpdate c7env c7busy.run true).2 },
           (SitemapUpdater.performUpdate c7env c7busy.run true).1) :=
  ⟨(c7_trigger_guards c7env c7busy rfl).1,
   (c7_trigger_guards c7env c7busy rfl).2.1,
   (c7_trigger_guards c7env c7busy rfl).2.2.1,
   (c7_trigger_guards c7env c7busy rfl).2.2.2 true⟩

/-! ## Claim C8 -/

/-- `fetchSitemap` does not touch the store. -/
theorem fetchSitemap_store (env : Env) (st : RunState) (u : String) :
    (SitemapUpdater.fetchSitemap env st u).2.store = st.store := by
  simp only [SitemapUpdater.fetchSitemap]
  cases env.sitemap u
  · rfl
  · (repeat' split) <;> rfl

/-- The sitemap-collection loop does not touch the store. -/
theorem collectSitemaps_store (env : Env) :
    ∀ (urls : List String) (st : RunState),
      (SitemapUpdater.collectSitemaps env st urls).2.2.store = st.store := by
  intro urls
  induction urls with
  | nil => intro st; rfl
  | cons u rest ih =>
    intro st
    simp only [SitemapUpdater.collectSitemaps]
    cases hr : SitemapUpdater.fetchSitemap env st u with
    | mk r st' =>
      have hst' : st'.store = st.store := by
        have h := fetchSitemap_store env st u
        rw [hr] at h
        exact h
      cases r <;>
      · simp only []
        exact (ih st').trans hst'

/-- `upsertDocument` does not touch the ledger table. -/
theorem upsertDocument_statusRows (s : Store) (doc : Document) (now : Nat) :
    (Database.upsertDocument s doc now).statusRows = s.statusRows := by
  simp only [Database.upsertDocument]

/-- `processEntry` does not touch the ledger table. -/
theorem processEntry_statusRows (env : Env) (st : RunState)
    (e : SourcedEntry) (lut : Option Nat) :
    (SitemapUpdater.processEntry env st e lut).2.store.statusRows
      = st.store.statusRows := by
  simp only [SitemapUpdater.processEntry]
  split
  · rfl
  · cases hgen : SitemapUpdater.generateDocumentId e.loc with
    | none => rfl
    | some did =>
      simp only [hgen]
      cases hpd : DocumentProcessor.processDocument env st e.loc
          (match e.lastmod with
            | some s => env.parseDate s
            | none => some st.clock) e.source with
      | mk od st' =>
        have hst : st'.store = st.store := by
          have h := processDocument_store env st e.loc
            (match e.lastmod with
              | some s => env.parseDate s
              | none => some st.clock) e.source
          rw [hpd] at h
          exact h
        cases od with
        | none => simp [hst]
        | some d =>
          cases hex : Database.getDocument st.store did with
          | none => simp [hex, upsertDocument_statusRows, hst]
          | some ex =>
            simp only [hex]
            split <;> simp [upsertDocument_statusRows, hst]

/-- One batch does not touch the ledger table. -/
theorem runBatch_statusRows (env : Env) (lut : Option Nat) :
    ∀ (b : List SourcedEntry) (st : RunState),
      (SitemapUpdater.runBatch env st lut b).2.store.statusRows
        = st.store.statusRows := by
  intro b
  induction b with
  | nil => intro st; rfl
  | cons e rest ih =>
    intro st
    simp only [SitemapUpdater.runBatch]
    cases hpe : SitemapUpdater.processEntry env st e lut with
    | mk r st' =>
      cases hrec : SitemapUpdater.runBatch env st' lut rest with
      | mk rs st'' =>
        have h1 := processEntry_statusRows env st e lut
        rw [hpe] at h1
        have h2 := ih st'
        rw [hrec] at h2
        simp only []
        exact h2.trans h1

/-- The batch loop does not touch the ledger table. -/
theorem runBatches_statusRows (env : Env) (lut : Option Nat) :
    ∀ (bs : List (List SourcedEntry)) (st : RunState)
      (status : StatusCounts),
      (SitemapUpdater.runBatches env st lut status bs).2.store.statusRows
        = st.store.statusRows := by
  intro bs
  induction bs with
  | nil => intro st status; rfl
  | cons b rest ih =>
    intro st status
    simp only [SitemapUpdater.runBatches]
    cases hb : SitemapUpdater.runBatch env st lut b with
    | mk results st' =>
      have h1 := runBatch_statusRows env lut b st
      rw [hb] at h1
      cases hrest : rest.isEmpty
      all_goals simp only [hrest, if_false, if_true, Bool.false_eq_true]
      · exact (ih _ _).trans h1
      · exact (ih _ _).trans h1

/-- The deletion sweep does not touch the ledger table. -/
theorem cleanupDeletedDocuments_statusRows (st : RunState)
    (entries : List SourcedEntry) :
    (SitemapUpdater.cleanupDeletedDocuments st entries).2.store.statusRows
      = st.store.statusRows := by
  simp only [SitemapUpdater.cleanupDeletedDocuments]
  rw [cleanupLoop_spec]

/-- Phases 1–4 of a run do not touch the ledger table. -/
theorem runCore_statusRows (env : Env) (st : RunState) (force : Bool) :
    (SitemapUpdater.runCore env st force).2.store.statusRows
      = st.store.statusRows := by
  simp only [SitemapUpdater.runCore]
  cases h1 : SitemapUpdater.collectSitemaps env st env.config.sitemapUrls with
  | mk es p =>
    cases p with
    | mk errs st1 =>
      have hc := collectSitemaps_store env env.config.sitemapUrls st
      rw [h1] at hc
      cases h2 : SitemapUpdater.runBatches env st1
          ((if force then none
            else Database.getLastUpdateStatus st1.store).map (·.lastUpdate))
          { errors := errs }
          (SitemapUpdater.createBatches
            (SitemapUpdater.filterDocumentationEntries es)
            env.config.maxConcurrentUpdates) with
      | mk status2 st2 =>
        have hb := runBatches_statusRows env
          (Option.map (fun x => x.lastUpdate)
            (if force then none else Database.getLastUpdateStatus st1.store))
          (SitemapUpdater.createBatches
            (SitemapUpdater.filterDocumentationEntries es)
            env.config.maxConcurrentUpdates) st1 { errors := errs }
        rw [h2] at hb
        cases h3 : SitemapUpdater.cleanupDeletedDocuments st2
            (SitemapUpdater.filterDocumentationEntries es) with
        | mk n st3 =>
          have hd := cleanupDeletedDocuments_statusRows st2
            (SitemapUpdater.filterDocumentationEntries es)
          rw [h3] at hd
          simp only []
          calc st3.store.statusRows = st2.store.statusRows := hd
            _ = st1.store.statusRows := hb
            _ = st.store.statusRows := congrArg Store.statusRows hc

/-- C8 (amended): provided the ledger write itself succeeds
(`saveStatusFails = false`), every invocation of `performUpdate`
appends exactly one ledger row, success or aborted run alike — on a
successful run the completed status, and on a run aborted by the
document-count failure the partial counts accumulated by phases 1–4
plus the terminating error message appended to the error list.  (When
the ledger write itself fails nothing is appended; see the
counterexample.) -/
theorem c8_single_ledger_append (env : Env) (st : RunState) (force : Bool)
    (hsave : env.saveStatusFails = false) :
    (SitemapUpdater.performUpdate env st force).2.store.statusRows
      = st.store.statusRows
        ++ [if env.countFails then
              { (SitemapUpdater.runCore env st force).1 with
                errors := (SitemapUpdater.runCore env st force).1.errors
                  ++ ["Update failed: " ++ env.countErrMsg],
                duration :=
                  (SitemapUpdater.runCore env st force).2.clock - st.clock,
                lastUpdate := (SitemapUpdater.runCore env st force).2.clock }
            else
              { (SitemapUpdater.runCore env st force).1 with
                totalDocuments := Database.getTotalDocumentCount
                  (SitemapUpdater.runCore env st force).2.store,
                duration :=
                  (SitemapUpdater.runCore env st force).2.clock - st.clock,
                lastUpdate := (SitemapUpdater.runCore env st force).2.clock }] := by
  have hpres := runCore_statusRows env st force
  simp only [SitemapUpdater.performUpdate]
  cases hrc : SitemapUpdater.runCore env st force with
  | mk status st' =>
    rw [hrc] at hpres
    simp only at hpres
    cases hcf : env.countFails <;>
      simp [hsave, Database.saveUpdateStatus, hpres]

/-- An environment whose document-count query fails mid-run. -/
def c8wEnv : Env := { c7env with countFails := true }

/-- Witness for C8: a run aborted by the count failure still appends
exactly one row, whose error list ends with the terminating error. -/
theorem c8_single_ledger_append_witness :
    (SitemapUpdater.performUpdate c8wEnv c6state false).2.store.statusRows.length
      = c6state.store.statusRows.length + 1
    ∧ ((SitemapUpdater.performUpdate c8wEnv c6state
          false).2.store.statusRows.getLast?.map (·.errors))
        = some ["Update failed: " ++ c8wEnv.countErrMsg] := by
  have h := c8_single_ledger_append c8wEnv c6state false rfl
  rw [h]
  constructor
  · simp
  · decide

/-- An environment whose ledger writes fail. -/
def c8failEnv : Env := { c7env with saveStatusFails := true }

/-- C8 counterexample: when the terminal `saveUpdateStatus` write
itself fails, the run appends **no** ledger entry at all and the error
propagates out of `performUpdate` (both the try-block save and the
catch-block save reject) — the run's signal is lost, contradicting
"every invocation appends exactly one ledger entry". -/
theorem c8_failed_ledger_write_loses_run :
    (SitemapUpdater.performUpdate c8failEnv c6state
        false).2.store.statusRows.length = 0
    ∧ (SitemapUpdater.performUpdate c8failEnv c6state false).1.toOption
        = none := by
  constructor <;> decide

/-! ## Claim C10 -/

/-- `saveUpdateStatus` does not touch the documents table. -/
theorem saveUpdateStatus_documents (s : Store) (status : StatusCounts)
    (now : Nat) :
    (Database.saveUpdateStatus s status now).documents = s.documents := by
  simp only [Database.saveUpdateStatus]

/-- C10: when every sitemap fetch of a run fails (the eligible entry
set is empty) and the run-terminating store calls succeed, the
deletion sweep still executes: the run's status counts exactly the
up-to-10000 most recently updated records as deleted, and the store
afterwards retains only documents outside that examined snapshot. -/
theorem c10_sitemap_failure_sweeps_all (env : Env) (st : RunState)
    (force : Bool)
    (hfail : ∀ u ∈ env.config.sitemapUrls,
      (sitemapOutcome env u).toOption = none)
    (hcount : env.countFails = false)
    (hsave : env.saveStatusFails = false) :
    ((SitemapUpdater.performUpdate env st force).1.toOption.map
        (·.deletedDocuments))
      = some (Database.getRecentUpdates st.store none 10000).length
    ∧ (SitemapUpdater.performUpdate env st force).2.store.documents
        = st.store.documents.filter fun x =>
            (Database.getRecentUpdates st.store none 10000).all fun e =>
              x.id ≠ e.id := by
  have hspec := collectSitemaps_spec env st env.config.sitemapUrls
  have hstore := collectSitemaps_store env env.config.sitemapUrls st
  cases h1 : SitemapUpdater.collectSitemaps env st env.config.sitemapUrls with
  | mk es p =>
    cases p with
    | mk errs st1 =>
      rw [h1] at hspec hstore
      simp only at hspec hstore
      have hes : es = [] := by
        rw [hspec.1, List.flatMap_eq_nil_iff]
        intro u hu
        cases ho : sitemapOutcome env u with
        | ok l =>
          have := hfail u hu
          rw [ho] at this
          exact absurd this (by simp [Except.toOption])
        | error m => rfl
      subst hes
      simp only [SitemapUpdater.performUpdate, SitemapUpdater.runCore, h1]
      simp only [SitemapUpdater.filterDocumentationEntries, List.filter_nil,
        SitemapUpdater.createBatches, chunksOf, chunksGo, List.isEmpty_nil,
        if_true, SitemapUpdater.runBatches,
        SitemapUpdater.cleanupDeletedDocuments]
      rw [cleanupLoop_spec]
      simp only [List.map_nil, List.contains_nil, Bool.not_false,
        List.filter_true, hcount, hsave, Bool.false_eq_true, if_false,
        Except.toOption, Option.map_some, saveUpdateStatus_documents,
        hstore]
      constructor <;> simp

/-- Environment for the C10 witness: the single configured sitemap
fails to fetch. -/
def c10wEnv : Env :=
  { config := { sitemapUrls := ["https://help.moengage.com/hc/sitemap.xml"],
                rateLimitRequests := 10, rateLimitWindow := 1000,
                maxConcurrentUpdates := 5 },
    sitemap := fun _ => .fetchError "timeout",
    page := fun _ => .fetchError "timeout",
    turndown := fun s => s,
    parseDate := fun _ => none }

/-- A store holding two documents for the C10 witness. -/
def c10wState : RunState :=
  { clock := 100, limiter := [], trace := [],
    store := { documents := [c5docA, c5docB], statusRows := [] } }

/-- Witness for C10 at a concrete run: the sole sitemap fails, and the
sweep deletes every examined record. -/
theorem c10_sitemap_failure_sweeps_all_witness :
    ((SitemapUpdater.performUpdate c10wEnv c10wState false).1.toOption.map
        (·.deletedDocuments))
      = some (Database.getRecentUpdates c10wState.store none 10000).length
    ∧ (SitemapUpdater.performUpdate c10wEnv c10wState
          false).2.store.documents
        = c10wState.store.documents.filter fun x =>
            (Database.getRecentUpdates c10wState.store none 10000).all
              fun e => x.id ≠ e.id :=
  c10_sitemap_failure_sweeps_all c10wEnv c10wState false
    (by intro u hu; rw [List.mem_singleton.mp hu]; rfl) rfl rfl

end MoEngage
